import Mathlib

/-!
Verification of the order-lifecycle core of the tcommerce bot.

The repository ships three near-duplicate entry points (bot.py, bot1.py,
bot2.py) sharing one persisted JSON document.  The definitions below are a
shallow embedding of the handlers the claims cite, translated from the
source: bot1.py / bot2.py `checkout_paytype` and bot2.py `pay_callback`
(which carry the coupon / discount logic), `ask_country`, `save_country`,
`checkout_start`, `checkout_notes`, `add_to_cart_callback`,
`download_address`, and the inline checkout handlers of bot2.py.

Modelling conventions:
* the persisted document (data.json) is the `Store` structure; a handler
  that never calls `save_data` returns its input store unchanged;
* Python floats are modelled as exact rationals (ℚ); `round(x, 2)` is
  `round2` (round to the nearest hundredth; the exact-tie behaviour is
  immaterial to every claim settled here);
* `int(time.time())` and `uuid4().hex[:6]` are oracle inputs `t : Nat`
  and `sfx : String` supplied to each finalization;
* a dict key that a user record may lack (`coupon`, `wishlist`) is an
  `Option` / defaulted field, matching the `user.get(...)` accesses;
* the chat transport, PGP encryption and file delivery are out of scope:
  an encrypted address reaches the checkout as an opaque string.
-/

/-- Cart line: snapshot of a product at add time (bot.py line 272). -/
structure CartLine where
  id : String
  name : String
  price : ℚ
deriving DecidableEq

/-- Catalog product record (fields used by the handlers). -/
structure Product where
  id : String
  name : String
  price : ℚ
  description : String
deriving DecidableEq

/-- An account record, keyed in the store by its secret phrase.
`coupon`/`wishlist` keys are absent until first set, hence `Option`/default. -/
structure UserAcct where
  username : String
  telegram_id : Int
  country : Option String
  cart : List CartLine
  wishlist : List CartLine
  coupon : Option String
  orders : List String
deriving DecidableEq

/-- Order record as built by bot1.py/bot2.py `checkout_paytype` and
bot2.py `pay_callback`. -/
structure Order where
  order_id : String
  user : String
  items : List CartLine
  address_encrypted : String
  notes : String
  payment_type : String
  status : String
  timestamp : Nat
  subtotal : ℚ
  discount : ℚ
  total : ℚ
  coupon : String
deriving DecidableEq

/-- The persisted data.json document (the parts the claims concern).
`users` is an association list in dict insertion order. -/
structure Store where
  users : List (String × UserAcct)
  products : List (String × List Product)
  orders : List Order
deriving DecidableEq

/-- First user bound to a secret phrase (`data['users'].get(secret)` /
`secret in users`). -/
def lookupUser (us : List (String × UserAcct)) (s : String) : Option UserAcct :=
  match us with
  | [] => none
  | (k, u) :: rest => if k = s then some u else lookupUser rest s

/-- In-place mutation of the record bound to a key, as Python dict item
assignment: the first binding is replaced, positions are kept. -/
def updateUser (us : List (String × UserAcct)) (s : String) (u' : UserAcct) :
    List (String × UserAcct) :=
  match us with
  | [] => []
  | (k, u) :: rest =>
    if k = s then (k, u') :: rest else (k, u) :: updateUser rest s u'

/-- The `find_secret_by_user_id` helper of bot1.py/bot2.py: first user whose
`telegram_id` equals the caller's. -/
def find_secret_by_user_id (us : List (String × UserAcct)) (tid : Int) :
    Option String :=
  match us with
  | [] => none
  | (k, u) :: rest =>
    if u.telegram_id = tid then some k else find_secret_by_user_id rest tid

/-- Python `str.strip()`: drop leading and trailing whitespace. -/
def pyStrip (s : String) : String :=
  ⟨((s.data.dropWhile Char.isWhitespace).reverse.dropWhile
      Char.isWhitespace).reverse⟩

/-- Python `str.upper()` (the tokens compared here are ASCII). -/
def pyUpper (s : String) : String := ⟨s.data.map Char.toUpper⟩

/-- Python `str.lower()` (the tokens compared here are ASCII). -/
def pyLower (s : String) : String := ⟨s.data.map Char.toLower⟩

/-- Python `round(q, 2)`: round to the nearest hundredth. -/
def round2 (q : ℚ) : ℚ := ((⌊q * 100 + 1 / 2⌋ : ℤ) : ℚ) / 100

/-- `sum(item['price'] for item in cart)`. -/
def cartSubtotal (c : List CartLine) : ℚ := (c.map CartLine.price).sum

/-- Order id minting: `str(int(time.time())) + '-' + uuid4().hex[:6]`
(bot.py line 344; bot1.py line 376; bot2.py lines 444 and 989).
`sfx` is the 6-character random hex suffix supplied by the oracle. -/
def mintOrderId (t : Nat) (sfx : String) : String :=
  Nat.repr t ++ "-" ++ sfx

/-- The order dict literal built at finalization (bot1.py lines 376-390,
bot2.py lines 444-458 and 989-1003). -/
def builtOrder (secret addr notes pay : String) (t : Nat) (sfx : String)
    (u : UserAcct) : Order :=
  let subtotal := cartSubtotal u.cart
  let discount : ℚ :=
    if u.coupon = some "SAVE10" then round2 (subtotal * (1 / 10)) else 0
  { order_id := mintOrderId t sfx
    user := secret
    items := u.cart
    address_encrypted := addr
    notes := notes
    payment_type := pay
    status := "pending"
    timestamp := t
    subtotal := subtotal
    discount := discount
    total := round2 (subtotal - discount)
    coupon := if 0 < discount then u.coupon.getD "" else "" }

/-- Outcome of a finalization attempt. -/
inductive PayResult where
  | invalidPay
  | emptyCart
  | noUser
  | created (o : Order)
deriving DecidableEq

/-- Shared finalization body of bot1.py/bot2.py `checkout_paytype` (after
payment-type validation) and bot2.py `pay_callback` (after secret lookup):
re-read the account's cart, abort on empty cart, otherwise append the order
to the ledger, append its id to the account, clear the cart and pop the
coupon, then save. -/
def finalizeOrder (st : Store) (secret addr notes pay : String) (t : Nat)
    (sfx : String) : Store × PayResult :=
  match lookupUser st.users secret with
  | none => (st, PayResult.noUser)
  | some u =>
    if u.cart = [] then (st, PayResult.emptyCart)
    else
      let o := builtOrder secret addr notes pay t sfx u
      ({ st with
          users := updateUser st.users secret
            { u with orders := u.orders ++ [o.order_id], cart := [],
                     coupon := none }
          orders := st.orders ++ [o] },
        PayResult.created o)

/-- bot1.py lines 355-412 / bot2.py lines 423-480 `checkout_paytype`:
`pay = update.message.text.strip().upper()`; anything other than BTC/USDT
re-prompts and stays in `CHECKOUT_PAYTYPE` with nothing written. -/
def checkout_paytype (st : Store) (secret addr notes : String) (t : Nat)
    (sfx : String) (text : String) : Store × PayResult :=
  let pay := pyUpper (pyStrip text)
  if pay = "BTC" ∨ pay = "USDT" then
    finalizeOrder st secret addr notes pay t sfx
  else (st, PayResult.invalidPay)

/-- Split a character list at the first occurrence of a separator. -/
def splitFirst (sep : Char) : List Char → Option (List Char × List Char)
  | [] => none
  | c :: rest =>
    if c = sep then some ([], rest)
    else
      match splitFirst sep rest with
      | none => none
      | some (a, b) => some (c :: a, b)

/-- Python `query.data.split('|', 1)` followed by `_, pay = ...` with the
`ValueError` fallback to `'BTC'` (bot2.py lines 965-968): the text after the
first `|`, or `BTC` when there is no separator. -/
def parsePayData (d : String) : String :=
  match splitFirst '|' d.data with
  | none => "BTC"
  | some r => ⟨r.2⟩

/-- bot2.py lines 962-1027 `pay_callback`: the inline payment step.  The
token after `pay|` is upper-cased and used as the payment type with no
membership validation. -/
def pay_callback (st : Store) (tid : Int) (addr notes : String) (t : Nat)
    (sfx : String) (cbdata : String) : Store × PayResult :=
  let pay := pyUpper (parsePayData cbdata)
  match find_secret_by_user_id st.users tid with
  | none => (st, PayResult.noUser)
  | some secret => finalizeOrder st secret addr notes pay t sfx

/-- Outcome of `checkout_start`. -/
inductive StartResult where
  | emptyCart
  | askAddress
  | noUser
deriving DecidableEq

/-- bot.py lines 296-306 `checkout_start`: refuse to start on an empty cart;
never writes the store. -/
def checkout_start (st : Store) (secret : String) : Store × StartResult :=
  match lookupUser st.users secret with
  | none => (st, StartResult.noUser)
  | some u =>
    if u.cart = [] then (st, StartResult.emptyCart)
    else (st, StartResult.askAddress)

/-- bot.py lines 319-327 `checkout_notes`: the notes the draft keeps for the
given message text.  The text is stripped first; a stripped text lowering to
`skip` yields empty notes, otherwise the stripped text is stored. -/
def checkout_notes (text : String) : String :=
  let notes := pyStrip text
  if pyLower notes = "skip" then "" else notes

/-- bot2.py lines 940-951 inline flow: the address step pre-sets notes to
`''`; the notes step overwrites them with the stripped text unless it lowers
to `skip`. -/
def inline_checkout_notes (text : String) : String :=
  let notes := pyStrip text
  if pyLower notes ≠ "skip" then notes else ""

/-- Product lookup of `add_to_cart_callback` (bot.py lines 250-256): the
inner loop breaks on a match but the outer loop keeps scanning categories,
so a later category overrides an earlier match. -/
def findProduct (prods : List (String × List Product)) (pid : String) :
    Option Product :=
  prods.foldl
    (fun acc ci =>
      match ci.2.find? (fun p => p.id == pid) with
      | some p => some p
      | none => acc)
    none

/-- Append a cart line to the first user whose `telegram_id` matches,
reporting whether one was found (bot.py lines 260-273). -/
def addToCartUsers (us : List (String × UserAcct)) (tid : Int)
    (line : CartLine) : List (String × UserAcct) × Bool :=
  match us with
  | [] => ([], false)
  | (k, u) :: rest =>
    if u.telegram_id = tid then
      ((k, { u with cart := u.cart ++ [line] }) :: rest, true)
    else
      let r := addToCartUsers rest tid line
      ((k, u) :: r.1, r.2)

/-- Outcome of an add-to-cart attempt. -/
inductive AddResult where
  | productNotFound
  | notRegistered
  | ok
deriving DecidableEq

/-- bot.py lines 246-274 `add_to_cart_callback`: look the product up across
all categories, then append an id/name/price snapshot to the caller's cart;
on failure nothing is written. -/
def add_to_cart_callback (st : Store) (tid : Int) (pid : String) :
    Store × AddResult :=
  match findProduct st.products pid with
  | none => (st, AddResult.productNotFound)
  | some p =>
    let r := addToCartUsers st.users tid
      { id := p.id, name := p.name, price := p.price }
    if r.2 then ({ st with users := r.1 }, AddResult.ok)
    else (st, AddResult.notRegistered)

/-- The account record created on first registration (bot.py lines 139-145):
no country yet, empty cart and orders; `wishlist`/`coupon` keys absent. -/
def newUserAcct (uname : String) (tid : Int) : UserAcct :=
  { username := uname, telegram_id := tid, country := none, cart := [],
    wishlist := [], coupon := none, orders := [] }

/-- bot.py lines 131-154 `ask_country`: the registration step receiving the
secret phrase.  An already-registered phrase leaves the store untouched (no
`save_data` call); a new phrase inserts a fresh account and saves. -/
def ask_country (st : Store) (tid : Int) (uname : String) (text : String) :
    Store :=
  let secret := pyStrip text
  match lookupUser st.users secret with
  | some _ => st
  | none => { st with users := st.users ++ [(secret, newUserAcct uname tid)] }

/-- bot.py lines 157-176 `save_country`: stores the chosen country on the
pending account and re-binds the transport identity (`telegram_id`,
`username`) to it.  `none` models the surfaced session / user-not-found
errors (store untouched).  An empty `uname` models a missing telegram
username (falsy in `username or user.get('username', '')`). -/
def save_country (st : Store) (tid : Int) (uname : String)
    (pendingSecret : String) (ctext : String) : Option Store :=
  let country := pyStrip ctext
  if pendingSecret = "" then none
  else
    match lookupUser st.users pendingSecret with
    | none => none
    | some u =>
      some { st with
        users := updateUser st.users pendingSecret
          { u with country := some country,
                   username := if uname = "" then u.username else uname,
                   telegram_id := tid } }

/-- The complete re-registration flow for a phrase: the `ask_country` step
(which sets `pending_secret` to the stripped phrase) followed by the
`save_country` step in the same session. -/
def reRegister (st : Store) (tid : Int) (uname : String)
    (text ctext : String) : Option Store :=
  save_country (ask_country st tid uname text) tid uname (pyStrip text) ctext

/-- Outcome of `/download_address`. -/
inductive DlResult where
  | notFound
  | noAddress
  | file (blob : String)
deriving DecidableEq

/-- bot.py lines 388-431 / bot2.py lines 504-547 `download_address`: scan the
ledger for an order with the requested id owned by the caller's account; a
missing id and a foreign order fall into the same `notFound` reply. -/
def download_address (st : Store) (secret : String) (oid : String) :
    DlResult :=
  match st.orders.find? (fun o => o.order_id == oid && o.user == secret) with
  | none => DlResult.notFound
  | some o =>
    if o.address_encrypted = "" then DlResult.noAddress
    else DlResult.file o.address_encrypted

/-- Cart of the first account bound to a transport id (the account
`add_to_cart_callback` operates on). -/
def cartOfTid (us : List (String × UserAcct)) (tid : Int) :
    Option (List CartLine) :=
  match us with
  | [] => none
  | (_, u) :: rest =>
    if u.telegram_id = tid then some u.cart else cartOfTid rest tid

/-- Run a sequence of add-to-cart operations for one transport identity,
counting the successful adds. -/
def addRun (st : Store) (tid : Int) : List String → Store × Nat
  | [] => (st, 0)
  | pid :: rest =>
    let r := add_to_cart_callback st tid pid
    let rr := addRun r.1 tid rest
    (rr.1, (if r.2 = AddResult.ok then 1 else 0) + rr.2)

/-- One checkout finalization event: the session inputs plus the time and
randomness the oracle supplies to it. -/
structure CreationEvent where
  secret : String
  addr : String
  notes : String
  pay : String
  t : Nat
  sfx : String
deriving DecidableEq

/-- A sequence of sequential order-creation attempts against the store. -/
def runCreations (st : Store) : List CreationEvent → Store
  | [] => st
  | e :: rest =>
    runCreations (finalizeOrder st e.secret e.addr e.notes e.pay e.t e.sfx).1
      rest

/-! ### Generic lemmas about the store operations -/

theorem lookupUser_updateUser_self (us : List (String × UserAcct))
    (s : String) (u u' : UserAcct) (h : lookupUser us s = some u) :
    lookupUser (updateUser us s u') s = some u' := by
  induction us with
  | nil => simp [lookupUser] at h
  | cons p rest ih =>
    obtain ⟨k, v⟩ := p
    by_cases hk : k = s
    · simp [lookupUser, updateUser, hk]
    · simp [lookupUser, updateUser, hk] at h ⊢
      exact ih h

theorem finalizeOrder_created_inv (st st' : Store)
    (secret addr notes pay : String) (t : Nat) (sfx : String) (o : Order)
    (h : finalizeOrder st secret addr notes pay t sfx =
      (st', PayResult.created o)) :
    ∃ u, lookupUser st.users secret = some u ∧ u.cart ≠ [] ∧
      o = builtOrder secret addr notes pay t sfx u ∧
      st' = { st with
        users := updateUser st.users secret
          { u with orders := u.orders ++ [o.order_id], cart := [],
                   coupon := none }
        orders := st.orders ++ [o] } := by
  unfold finalizeOrder at h
  cases hu : lookupUser st.users secret with
  | none => rw [hu] at h; simp at h
  | some u =>
    rw [hu] at h
    by_cases hc : u.cart = []
    · simp [hc] at h
    · simp [hc, Prod.ext_iff] at h
      exact ⟨u, rfl, hc, h.2.symm, by rw [← h.1, ← h.2]⟩

theorem checkout_paytype_created_inv (st st' : Store)
    (secret addr notes : String) (t : Nat) (sfx text : String) (o : Order)
    (h : checkout_paytype st secret addr notes t sfx text =
      (st', PayResult.created o)) :
    (pyUpper (pyStrip text) = "BTC" ∨ pyUpper (pyStrip text) = "USDT") ∧
    finalizeOrder st secret addr notes (pyUpper (pyStrip text)) t sfx =
      (st', PayResult.created o) := by
  unfold checkout_paytype at h
  by_cases hv : pyUpper (pyStrip text) = "BTC" ∨ pyUpper (pyStrip text) = "USDT"
  · rw [if_pos hv] at h; exact ⟨hv, h⟩
  · rw [if_neg hv] at h; simp [Prod.ext_iff] at h

/-! ### C1: stored totals and the coupon discount -/

/-- Concrete account of the spec scenario: cart `[(A, 10), (B, 15)]` with the
coupon attached. -/
def c1Alice : UserAcct :=
  { username := "al", telegram_id := 1, country := some "USA",
    cart := [{ id := "A", name := "A", price := 10 },
             { id := "B", name := "B", price := 15 }],
    wishlist := [], coupon := some "SAVE10", orders := [] }

/-- Store holding the C1 scenario account. -/
def c1Store : Store :=
  { users := [("alice", c1Alice)], products := [], orders := [] }

/-- C1: every order created at checkout finalization stores
`total = round(subtotal - discount, 2)` and
`discount = round(subtotal * 0.10, 2)` when the valid coupon `SAVE10` was
attached to the account at finalization time, else `0`; in particular the
cart `[(A, 10), (B, 15)]` with the coupon yields subtotal `25.00`,
discount `2.50`, total `22.50`. -/
theorem c1_money_invariant :
    (∀ (st st' : Store) (secret addr notes : String) (t : Nat)
        (sfx text : String) (u : UserAcct) (o : Order),
        lookupUser st.users secret = some u →
        checkout_paytype st secret addr notes t sfx text =
          (st', PayResult.created o) →
        o.subtotal = cartSubtotal u.cart ∧
        o.discount =
          (if u.coupon = some "SAVE10" then round2 (o.subtotal * (1 / 10))
           else 0) ∧
        o.total = round2 (o.subtotal - o.discount)) ∧
    (∃ st' o, checkout_paytype c1Store "alice" "enc" "" 1000 "abcdef" "BTC" =
        (st', PayResult.created o) ∧
      o.subtotal = 25 ∧ o.discount = 5 / 2 ∧ o.total = 45 / 2) := by
  constructor
  · intro st st' secret addr notes t sfx text u o hu h
    obtain ⟨-, hfin⟩ := checkout_paytype_created_inv st st' secret addr notes
      t sfx text o h
    obtain ⟨u', hu', -, ho, -⟩ := finalizeOrder_created_inv st st' secret addr
      notes (pyUpper (pyStrip text)) t sfx o hfin
    rw [hu] at hu'
    cases hu'
    subst ho
    refine ⟨rfl, ?_, rfl⟩
    rfl
  · have e1 : cartSubtotal c1Alice.cart = 25 := by
      norm_num [cartSubtotal, c1Alice]
    have e2 : round2 ((25 : ℚ) * (1 / 10)) = 5 / 2 := by
      have h : (⌊((25 : ℚ) * (1 / 10)) * 100 + 1 / 2⌋ : ℤ) = 250 := by
        rw [Int.floor_eq_iff]
        norm_num
      rw [round2, h]
      norm_num
    have e3 : round2 ((25 : ℚ) - 5 / 2) = 45 / 2 := by
      have h : (⌊((25 : ℚ) - 5 / 2) * 100 + 1 / 2⌋ : ℤ) = 2250 := by
        rw [Int.floor_eq_iff]
        norm_num
      rw [round2, h]
      norm_num
    refine ⟨_, _, rfl, ?_, ?_, ?_⟩
    · exact e1
    · show (if c1Alice.coupon = some "SAVE10"
          then round2 (cartSubtotal c1Alice.cart * (1 / 10)) else 0) = 5 / 2
      rw [e1, if_pos (show c1Alice.coupon = some "SAVE10" from rfl)]
      exact e2
    · show round2 (cartSubtotal c1Alice.cart -
          (if c1Alice.coupon = some "SAVE10"
           then round2 (cartSubtotal c1Alice.cart * (1 / 10)) else 0)) = 45 / 2
      rw [e1, if_pos (show c1Alice.coupon = some "SAVE10" from rfl), e2]
      exact e3

/-- Witness for C1: the invariant instantiated on the concrete scenario
store, with both hypotheses discharged there. -/
theorem c1_money_invariant_witness :
    lookupUser c1Store.users "alice" = some c1Alice ∧
    (∃ st' o, checkout_paytype c1Store "alice" "enc" "" 1000 "abcdef" "BTC" =
        (st', PayResult.created o) ∧
      o.subtotal = cartSubtotal c1Alice.cart ∧
      o.discount =
        (if c1Alice.coupon = some "SAVE10" then round2 (o.subtotal * (1 / 10))
         else 0) ∧
      o.total = round2 (o.subtotal - o.discount)) := by
  refine ⟨rfl, ⟨_, _, rfl, ?_⟩⟩
  exact c1_money_invariant.1 c1Store _ "alice" "enc" "" 1000 "abcdef" "BTC"
    c1Alice _ rfl rfl

/-! ### C3: finalization empties the cart and appends exactly the snapshot -/

/-- Concrete account for the C3 witness. -/
def c3Bob : UserAcct :=
  { username := "bo", telegram_id := 2, country := some "UK",
    cart := [{ id := "C", name := "C", price := 7 }],
    wishlist := [], coupon := none, orders := ["old-1"] }

/-- Store holding the C3 witness account. -/
def c3Store : Store :=
  { users := [("bob", c3Bob)], products := [], orders := [] }

/-- C3: every successful checkout finalization records in the new order
exactly the lines of the cart snapshot read when the payment type was
accepted (no line lost or duplicated), appends the order to the ledger,
appends the new order id to the account's order-reference list, and empties
the account's cart. -/
theorem c3_finalize_snapshot_and_ledger :
    ∀ (st st' : Store) (secret addr notes : String) (t : Nat)
      (sfx text : String) (u : UserAcct) (o : Order),
      lookupUser st.users secret = some u →
      checkout_paytype st secret addr notes t sfx text =
        (st', PayResult.created o) →
      o.items = u.cart ∧
      st'.orders = st.orders ++ [o] ∧
      ∃ u', lookupUser st'.users secret = some u' ∧
        u'.cart = [] ∧ u'.orders = u.orders ++ [o.order_id] := by
  intro st st' secret addr notes t sfx text u o hu h
  obtain ⟨-, hfin⟩ := checkout_paytype_created_inv st st' secret addr notes
    t sfx text o h
  obtain ⟨u', hu', -, ho, hst⟩ := finalizeOrder_created_inv st st' secret addr
    notes (pyUpper (pyStrip text)) t sfx o hfin
  rw [hu] at hu'
  cases hu'
  subst ho hst
  exact ⟨rfl, rfl, _, lookupUser_updateUser_self _ _ _ _ hu, rfl, rfl⟩

/-- Witness for C3: one finalization on a concrete store, both hypotheses
discharged there. -/
theorem c3_finalize_snapshot_and_ledger_witness :
    lookupUser c3Store.users "bob" = some c3Bob ∧
    (∃ st' o, checkout_paytype c3Store "bob" "enc" "note" 2000 "ffffff" " btc " =
        (st', PayResult.created o) ∧
      o.items = c3Bob.cart ∧
      st'.orders = c3Store.orders ++ [o] ∧
      ∃ u', lookupUser st'.users "bob" = some u' ∧
        u'.cart = [] ∧ u'.orders = c3Bob.orders ++ [o.order_id]) := by
  refine ⟨rfl, ⟨_, _, rfl, ?_⟩⟩
  exact c3_finalize_snapshot_and_ledger c3Store _ "bob" "enc" "note" 2000
    "ffffff" " btc " c3Bob _ rfl rfl

/-! ### C10: the coupon is always consumed, recorded only when discount > 0 -/

/-- Concrete account for the C10 witness: coupon attached to a zero-price
cart, so the computed discount is zero. -/
def c10Dave : UserAcct :=
  { username := "da", telegram_id := 3, country := none,
    cart := [{ id := "Z", name := "Z", price := 0 }],
    wishlist := [], coupon := some "SAVE10", orders := [] }

/-- Store holding the C10 witness account. -/
def c10Store : Store :=
  { users := [("dave", c10Dave)], products := [], orders := [] }

/-- C10: every successful finalization removes the account's coupon field
regardless of the computed discount, and the created order records the
coupon code only when the discount is strictly positive (an attached coupon
whose discount rounds to zero is consumed without being recorded). -/
theorem c10_coupon_consumed_not_always_recorded :
    ∀ (st st' : Store) (secret addr notes : String) (t : Nat)
      (sfx text : String) (u : UserAcct) (o : Order),
      lookupUser st.users secret = some u →
      checkout_paytype st secret addr notes t sfx text =
        (st', PayResult.created o) →
      (∃ u', lookupUser st'.users secret = some u' ∧ u'.coupon = none) ∧
      o.coupon = (if 0 < o.discount then u.coupon.getD "" else "") := by
  intro st st' secret addr notes t sfx text u o hu h
  obtain ⟨-, hfin⟩ := checkout_paytype_created_inv st st' secret addr notes
    t sfx text o h
  obtain ⟨u', hu', -, ho, hst⟩ := finalizeOrder_created_inv st st' secret addr
    notes (pyUpper (pyStrip text)) t sfx o hfin
  rw [hu] at hu'
  cases hu'
  subst ho hst
  exact ⟨⟨_, lookupUser_updateUser_self _ _ _ _ hu, rfl⟩, rfl⟩

/-- Witness for C10: a coupon on a zero-price cart is consumed (the account's
coupon slot is cleared) while the order records no coupon code and a zero
discount. -/
theorem c10_coupon_consumed_not_always_recorded_witness :
    lookupUser c10Store.users "dave" = some c10Dave ∧
    (∃ st' o, checkout_paytype c10Store "dave" "enc" "" 1000 "abcdef" "USDT" =
        (st', PayResult.created o) ∧
      (∃ u', lookupUser st'.users "dave" = some u' ∧ u'.coupon = none) ∧
      o.coupon = (if 0 < o.discount then c10Dave.coupon.getD "" else "") ∧
      o.discount = 0 ∧ o.coupon = "") := by
  have e0 : cartSubtotal c10Dave.cart = 0 := by
    norm_num [cartSubtotal, c10Dave]
  have e1 : round2 ((0 : ℚ) * (1 / 10)) = 0 := by
    have h : (⌊((0 : ℚ) * (1 / 10)) * 100 + 1 / 2⌋ : ℤ) = 0 := by
      rw [Int.floor_eq_iff]
      norm_num
    rw [round2, h]
    norm_num
  have hdis : (if c10Dave.coupon = some "SAVE10"
      then round2 (cartSubtotal c10Dave.cart * (1 / 10)) else 0) = 0 := by
    rw [e0, if_pos (show c10Dave.coupon = some "SAVE10" from rfl)]
    exact e1
  refine ⟨rfl, ⟨_, _, rfl, ?_, ?_, ?_⟩⟩
  · exact (c10_coupon_consumed_not_always_recorded c10Store _ "dave" "enc" ""
      1000 "abcdef" "USDT" c10Dave _ rfl rfl).1
  · exact (c10_coupon_consumed_not_always_recorded c10Store _ "dave" "enc" ""
      1000 "abcdef" "USDT" c10Dave _ rfl rfl).2
  · constructor
    · exact hdis
    · show (if 0 < (if c10Dave.coupon = some "SAVE10"
          then round2 (cartSubtotal c10Dave.cart * (1 / 10)) else 0)
          then c10Dave.coupon.getD "" else "") = ""
      rw [hdis, if_neg (lt_irrefl (0 : ℚ))]

/-! ### C2: re-registering with an existing phrase -/

/-- Concrete account for the C2 witness. -/
def c2Eve : UserAcct :=
  { username := "ev", telegram_id := 5, country := some "India",
    cart := [{ id := "D", name := "D", price := 3 }],
    wishlist := [{ id := "E", name := "E", price := 4 }],
    coupon := some "SAVE10", orders := ["1-aaaaaa"] }

/-- Store holding the C2 witness account. -/
def c2Store : Store :=
  { users := [("eve-secret", c2Eve)], products := [], orders := [] }

/-- C2: registering again with an existing account's secret phrase, from any
transport identity, leaves the store untouched at the phrase step (the
account is returned unchanged in content), and completing the flow re-binds
the transport identity to the account while never resetting its country
(it is set to the newly chosen country, never cleared), cart, or orders. -/
theorem c2_reregister_preserves_account :
    ∀ (st : Store) (tid : Int) (uname : String) (text ctext : String)
      (u : UserAcct),
      lookupUser st.users (pyStrip text) = some u →
      pyStrip text ≠ "" →
      ask_country st tid uname text = st ∧
      ∃ st' u', reRegister st tid uname text ctext = some st' ∧
        lookupUser st'.users (pyStrip text) = some u' ∧
        u'.cart = u.cart ∧ u'.orders = u.orders ∧
        u'.wishlist = u.wishlist ∧ u'.coupon = u.coupon ∧
        u'.telegram_id = tid ∧ u'.country = some (pyStrip ctext) := by
  intro st tid uname text ctext u hu hne
  have hask : ask_country st tid uname text = st := by
    simp only [ask_country, hu]
  refine ⟨hask, ?_⟩
  simp only [reRegister, save_country, hask, if_neg hne, hu]
  exact ⟨_, _, rfl, lookupUser_updateUser_self _ _ _ _ hu, rfl, rfl, rfl, rfl,
    rfl, rfl⟩

/-- Witness for C2: re-registration from a different transport identity on a
concrete store, hypotheses discharged there. -/
theorem c2_reregister_preserves_account_witness :
    lookupUser c2Store.users (pyStrip " eve-secret ") = some c2Eve ∧
    pyStrip " eve-secret " ≠ "" ∧
    (ask_country c2Store 99 "newname" " eve-secret " = c2Store ∧
     ∃ st' u', reRegister c2Store 99 "newname" " eve-secret " " UK " =
        some st' ∧
      lookupUser st'.users (pyStrip " eve-secret ") = some u' ∧
      u'.cart = c2Eve.cart ∧ u'.orders = c2Eve.orders ∧
      u'.wishlist = c2Eve.wishlist ∧ u'.coupon = c2Eve.coupon ∧
      u'.telegram_id = 99 ∧ u'.country = some (pyStrip " UK ")) := by
  refine ⟨rfl, by decide, ?_⟩
  exact c2_reregister_preserves_account c2Store 99 "newname" " eve-secret "
    " UK " c2Eve rfl (by decide)

/-! ### C4: failing operations leave the store unchanged -/

/-- Concrete account for the C4 witness: registered, empty cart. -/
def c4Nina : UserAcct :=
  { username := "ni", telegram_id := 6, country := some "USA",
    cart := [], wishlist := [], coupon := none, orders := [] }

/-- Store for the C4 witness: one registered user, a catalog without the
requested product. -/
def c4Store : Store :=
  { users := [("nina", c4Nina)],
    products := [("cat1", [{ id := "p1", name := "P1", price := 2,
                             description := "d" }])],
    orders := [] }

/-- C4: starting checkout with an empty cart, finalizing with an empty cart,
and adding a product id absent from the catalog each surface an error result
and return the persisted store unchanged (no order created, no cart line
appended, no write performed). -/
theorem c4_failing_operations_atomic :
    (∀ (st : Store) (secret : String) (u : UserAcct),
        lookupUser st.users secret = some u → u.cart = [] →
        checkout_start st secret = (st, StartResult.emptyCart)) ∧
    (∀ (st : Store) (secret addr notes : String) (t : Nat)
        (sfx text : String) (u : UserAcct),
        lookupUser st.users secret = some u → u.cart = [] →
        (pyUpper (pyStrip text) = "BTC" ∨ pyUpper (pyStrip text) = "USDT") →
        checkout_paytype st secret addr notes t sfx text =
          (st, PayResult.emptyCart)) ∧
    (∀ (st : Store) (tid : Int) (pid : String),
        findProduct st.products pid = none →
        add_to_cart_callback st tid pid = (st, AddResult.productNotFound)) := by
  refine ⟨?_, ?_, ?_⟩
  · intro st secret u hu hc
    simp only [checkout_start, hu, if_pos hc]
  · intro st secret addr notes t sfx text u hu hc hv
    simp only [checkout_paytype, if_pos hv, finalizeOrder, hu, if_pos hc]
  · intro st tid pid hp
    simp only [add_to_cart_callback, hp]

/-- Witness for C4: all three failure cases on a concrete store, hypotheses
discharged there. -/
theorem c4_failing_operations_atomic_witness :
    lookupUser c4Store.users "nina" = some c4Nina ∧
    c4Nina.cart = [] ∧
    findProduct c4Store.products "absent-id" = none ∧
    checkout_start c4Store "nina" = (c4Store, StartResult.emptyCart) ∧
    checkout_paytype c4Store "nina" "enc" "" 1 "aaaaaa" "BTC" =
      (c4Store, PayResult.emptyCart) ∧
    add_to_cart_callback c4Store 6 "absent-id" =
      (c4Store, AddResult.productNotFound) := by
  refine ⟨rfl, rfl, rfl, ?_, ?_, ?_⟩
  · exact c4_failing_operations_atomic.1 c4Store "nina" c4Nina rfl rfl
  · exact c4_failing_operations_atomic.2.1 c4Store "nina" "enc" "" 1 "aaaaaa"
      "BTC" c4Nina rfl rfl (Or.inl (by decide))
  · exact c4_failing_operations_atomic.2.2 c4Store 6 "absent-id" rfl

/-! ### C5: payment-type acceptance -/

/-- Concrete account for C5: registered, one item in the cart. -/
def c5Carol : UserAcct :=
  { username := "ca", telegram_id := 7, country := some "UK",
    cart := [{ id := "F", name := "F", price := 5 }],
    wishlist := [], coupon := none, orders := [] }

/-- Store holding the C5 account. -/
def c5Store : Store :=
  { users := [("carol", c5Carol)], products := [], orders := [] }

/-- C5 counterexample: the claim says exactly the inputs equal to BTC or
USDT after trimming and case-folding are accepted at the payment-type step,
with every other input re-prompting and creating no order.  The inline
payment step (`pay_callback`) accepts the callback input `pay|DOGE`, whose
token is neither BTC nor USDT, and persists an order with payment type
`DOGE`. -/
theorem c5_counterexample_doge_accepted :
    (∃ st' o, pay_callback c5Store 7 "enc" "" 100 "abcdef" "pay|DOGE" =
        (st', PayResult.created o) ∧
      o.payment_type = "DOGE" ∧ st'.orders.length = 1) ∧
    ¬ (("DOGE" : String) = "BTC" ∨ ("DOGE" : String) = "USDT") := by
  refine ⟨⟨_, _, rfl, ?_, ?_⟩, by decide⟩
  · decide
  · rfl

/-- C5 amended: the conversational payment-type handler accepts exactly the
inputs equal to BTC or USDT after stripping and upper-casing (`btc` behaves
identically to `BTC`); every other input re-prompts and leaves the store
unchanged with no order created.  The inline `pay_callback`, by contrast,
performs no validation: the created order's payment type is the upper-cased
token after the first `|` of the callback data, whatever it is. -/
theorem c5_amended_payment_validation :
    (∀ (st : Store) (secret addr notes : String) (t : Nat) (sfx text : String),
        ¬ (pyUpper (pyStrip text) = "BTC" ∨ pyUpper (pyStrip text) = "USDT") →
        checkout_paytype st secret addr notes t sfx text =
          (st, PayResult.invalidPay)) ∧
    (∀ (st : Store) (secret addr notes : String) (t : Nat) (sfx : String),
        checkout_paytype st secret addr notes t sfx "btc" =
        checkout_paytype st secret addr notes t sfx "BTC") ∧
    (∀ (st st' : Store) (tid : Int) (addr notes : String) (t : Nat)
        (sfx cbdata : String) (o : Order),
        pay_callback st tid addr notes t sfx cbdata =
          (st', PayResult.created o) →
        o.payment_type = pyUpper (parsePayData cbdata)) := by
  refine ⟨?_, ?_, ?_⟩
  · intro st secret addr notes t sfx text hv
    simp only [checkout_paytype, if_neg hv]
  · intro st secret addr notes t sfx
    rfl
  · intro st st' tid addr notes t sfx cbdata o h
    simp only [pay_callback] at h
    cases hs : find_secret_by_user_id st.users tid with
    | none => rw [hs] at h; simp [Prod.ext_iff] at h
    | some secret =>
      rw [hs] at h
      obtain ⟨u, -, -, ho, -⟩ := finalizeOrder_created_inv st st' secret addr
        notes (pyUpper (parsePayData cbdata)) t sfx o h
      subst ho
      rfl

/-- Witness for C5 (amended): a rejected conversational input and an
unvalidated inline input, hypotheses discharged on concrete stores. -/
theorem c5_amended_payment_validation_witness :
    (¬ (pyUpper (pyStrip " doge ") = "BTC" ∨
        pyUpper (pyStrip " doge ") = "USDT")) ∧
    checkout_paytype c5Store "carol" "enc" "" 100 "abcdef" " doge " =
      (c5Store, PayResult.invalidPay) ∧
    (∃ st' o, pay_callback c5Store 7 "enc" "" 100 "abcdef" "pay|usdt" =
        (st', PayResult.created o) ∧
      o.payment_type = pyUpper (parsePayData "pay|usdt")) := by
  refine ⟨by decide, ?_, ⟨_, _, rfl, ?_⟩⟩
  · exact c5_amended_payment_validation.1 c5Store "carol" "enc" "" 100
      "abcdef" " doge " (by decide)
  · exact c5_amended_payment_validation.2.2 c5Store _ 7 "enc" "" 100 "abcdef"
      "pay|usdt" _ rfl

/-! ### C6: cart length equals the number of successful adds -/

theorem addToCartUsers_found (us : List (String × UserAcct)) (tid : Int)
    (line : CartLine) (c0 : List CartLine)
    (h : cartOfTid us tid = some c0) :
    (addToCartUsers us tid line).2 = true ∧
    cartOfTid (addToCartUsers us tid line).1 tid = some (c0 ++ [line]) := by
  induction us with
  | nil => simp [cartOfTid] at h
  | cons p rest ih =>
    obtain ⟨k, u⟩ := p
    by_cases ht : u.telegram_id = tid
    · simp only [cartOfTid, if_pos ht, Option.some.injEq] at h
      subst h
      simp [addToCartUsers, ht, cartOfTid]
    · simp only [cartOfTid, if_neg ht] at h
      simpa [addToCartUsers, ht, cartOfTid] using ih h

theorem add_to_cart_step (st : Store) (tid : Int) (pid : String)
    (c0 : List CartLine) (h : cartOfTid st.users tid = some c0) :
    (∃ line, (add_to_cart_callback st tid pid).2 = AddResult.ok ∧
        cartOfTid (add_to_cart_callback st tid pid).1.users tid =
          some (c0 ++ [line])) ∨
    ((add_to_cart_callback st tid pid).1 = st ∧
        (add_to_cart_callback st tid pid).2 ≠ AddResult.ok) := by
  unfold add_to_cart_callback
  cases hp : findProduct st.products pid with
  | none => right; simp
  | some p =>
    obtain ⟨h2, hc⟩ := addToCartUsers_found st.users tid
      { id := p.id, name := p.name, price := p.price } c0 h
    left
    exact ⟨_, by simp [h2], by simpa [h2] using hc⟩

theorem addRun_length (tid : Int) (pids : List String) :
    ∀ (st : Store) (c0 : List CartLine),
      cartOfTid st.users tid = some c0 →
      ∃ c', cartOfTid (addRun st tid pids).1.users tid = some c' ∧
        c'.length = c0.length + (addRun st tid pids).2 := by
  induction pids with
  | nil =>
    intro st c0 h
    exact ⟨c0, h, by simp [addRun]⟩
  | cons pid rest ih =>
    intro st c0 h
    rcases add_to_cart_step st tid pid c0 h with ⟨line, hok, hc⟩ |
      ⟨hst, hnok⟩
    · obtain ⟨c', hc', hlen⟩ :=
        ih (add_to_cart_callback st tid pid).1 (c0 ++ [line]) hc
      refine ⟨c', by simpa [addRun] using hc', ?_⟩
      simp only [addRun, if_pos hok]
      simp only [List.length_append, List.length_cons, List.length_nil] at hlen
      omega
    · obtain ⟨c', hc', hlen⟩ := ih (add_to_cart_callback st tid pid).1 c0
        (by rw [hst]; exact h)
      refine ⟨c', by simpa [addRun] using hc', ?_⟩
      simp only [addRun, if_neg hnok]
      omega

/-- Catalog and account for the C6 witness: an account with an empty cart
and a one-product catalog. -/
def c6Gail : UserAcct :=
  { username := "ga", telegram_id := 8, country := none,
    cart := [], wishlist := [], coupon := none, orders := [] }

/-- Store for the first part of the C6 witness. -/
def c6Store : Store :=
  { users := [("gail", c6Gail)],
    products := [("cat1", [{ id := "p1", name := "P1", price := 2,
                             description := "d" }])],
    orders := [] }

/-- Account for the clear-cart part of the C6 witness. -/
def c6Finn : UserAcct :=
  { username := "fi", telegram_id := 9, country := none,
    cart := [{ id := "G", name := "G", price := 1 }],
    wishlist := [], coupon := none, orders := [] }

/-- Store for the clear-cart part of the C6 witness. -/
def c6Store2 : Store :=
  { users := [("finn", c6Finn)], products := [], orders := [] }

/-- C6: for every sequence of add-to-cart operations on an account starting
from an empty cart, the cart length equals the number of successful adds
(duplicate adds of the same product id each append a new line), and clearing
the cart at finalization always leaves it with length 0. -/
theorem c6_cart_length_and_clear :
    (∀ (st : Store) (tid : Int) (pids : List String),
        cartOfTid st.users tid = some [] →
        ∃ c', cartOfTid (addRun st tid pids).1.users tid = some c' ∧
          c'.length = (addRun st tid pids).2) ∧
    (∀ (st st' : Store) (secret addr notes : String) (t : Nat)
        (sfx text : String) (u : UserAcct) (o : Order),
        lookupUser st.users secret = some u →
        checkout_paytype st secret addr notes t sfx text =
          (st', PayResult.created o) →
        ∃ u', lookupUser st'.users secret = some u' ∧ u'.cart.length = 0) := by
  constructor
  · intro st tid pids h
    obtain ⟨c', hc', hlen⟩ := addRun_length tid pids st [] h
    exact ⟨c', hc', by simpa using hlen⟩
  · intro st st' secret addr notes t sfx text u o hu h
    obtain ⟨-, hfin⟩ := checkout_paytype_created_inv st st' secret addr notes
      t sfx text o h
    obtain ⟨u', hu', -, -, hst⟩ := finalizeOrder_created_inv st st' secret
      addr notes (pyUpper (pyStrip text)) t sfx o hfin
    rw [hu] at hu'
    cases hu'
    subst hst
    exact ⟨_, lookupUser_updateUser_self _ _ _ _ hu, rfl⟩

/-- Witness for C6: two successful duplicate adds and one failed add yield a
cart of length 2, and a concrete finalization leaves a cart of length 0;
hypotheses discharged on concrete stores. -/
theorem c6_cart_length_and_clear_witness :
    cartOfTid c6Store.users 8 = some [] ∧
    (∃ c', cartOfTid (addRun c6Store 8 ["p1", "p1", "zzz"]).1.users 8 =
        some c' ∧
      c'.length = (addRun c6Store 8 ["p1", "p1", "zzz"]).2) ∧
    (addRun c6Store 8 ["p1", "p1", "zzz"]).2 = 2 ∧
    lookupUser c6Store2.users "finn" = some c6Finn ∧
    (∃ u', lookupUser
        (checkout_paytype c6Store2 "finn" "enc" "" 30 "bbbbbb" "BTC").1.users
        "finn" = some u' ∧ u'.cart.length = 0) := by
  refine ⟨rfl, ?_, ?_, rfl, ?_⟩
  · exact c6_cart_length_and_clear.1 c6Store 8 ["p1", "p1", "zzz"] rfl
  · rfl
  · exact c6_cart_length_and_clear.2 c6Store2 _ "finn" "enc" "" 30 "bbbbbb"
      "BTC" c6Finn _ rfl rfl

/-! ### C7: the notes step -/

/-- C7 counterexample: the claim maps an input to empty notes exactly when
its lowercase form is the literal token `skip` and stores every other input
verbatim.  The input `"  skip "` lowers to `"  skip "`, which is not the
literal `skip`, so the claim requires it to be stored verbatim; the code
stores the empty string instead (it strips before comparing and storing). -/
theorem c7_counterexample_notes_not_verbatim :
    checkout_notes "  skip " = "" ∧
    pyLower "  skip " ≠ "skip" ∧
    ("" : String) ≠ "  skip " := by
  exact ⟨by decide, by decide, by decide⟩

/-- C7 amended: the notes input is first stripped of surrounding whitespace;
if the stripped input lowercases to the literal `skip` the draft's notes are
set to the empty string, otherwise the stripped input is stored.  The inline
notes handler of bot2.py agrees with the conversational one on every
input. -/
theorem c7_amended_notes_stripped :
    (∀ text : String, checkout_notes text =
        if pyLower (pyStrip text) = "skip" then "" else pyStrip text) ∧
    (∀ text : String, inline_checkout_notes text = checkout_notes text) := by
  constructor
  · intro text
    rfl
  · intro text
    unfold inline_checkout_notes checkout_notes
    by_cases h : pyLower (pyStrip text) = "skip" <;> simp [h]

/-! ### C9: download-address access control -/

/-- C9: the download-address operation returns an encrypted blob only for an
order present in the ledger whose owning account is the caller's, and every
other case — id absent from the ledger, or order owned by a different
account — yields the one `notFound` response, so the two cases are
indistinguishable to the caller. -/
theorem c9_download_address_access_control :
    (∀ (st : Store) (secret oid b : String),
        download_address st secret oid = DlResult.file b →
        ∃ o, o ∈ st.orders ∧ o.order_id = oid ∧ o.user = secret ∧
          o.address_encrypted = b) ∧
    (∀ (st : Store) (secret oid : String),
        (∀ o, o ∈ st.orders → ¬ (o.order_id = oid ∧ o.user = secret)) →
        download_address st secret oid = DlResult.notFound) := by
  constructor
  · intro st secret oid b h
    unfold download_address at h
    cases hf : st.orders.find?
        (fun o => o.order_id == oid && o.user == secret) with
    | none => rw [hf] at h; simp at h
    | some o =>
      rw [hf] at h
      have hmem := List.mem_of_find?_eq_some hf
      have hp := List.find?_some hf
      simp only [Bool.and_eq_true, beq_iff_eq] at hp
      by_cases ha : o.address_encrypted = ""
      · simp [ha] at h
      · simp [ha] at h
        exact ⟨o, hmem, hp.1, hp.2, h⟩
  · intro st secret oid hnone
    unfold download_address
    have hf : st.orders.find?
        (fun o => o.order_id == oid && o.user == secret) = none := by
      rw [List.find?_eq_none]
      intro o ho
      have := hnone o ho
      simp only [Bool.and_eq_true, beq_iff_eq]
      tauto
    rw [hf]

/-- Ledger order for the C9 witness, owned by account `bob`. -/
def c9Order : Order :=
  { order_id := "77-aaaaaa", user := "bob",
    items := [{ id := "H", name := "H", price := 9 }],
    address_encrypted := "BLOB", notes := "", payment_type := "BTC",
    status := "pending", timestamp := 77, subtotal := 9, discount := 0,
    total := 9, coupon := "" }

/-- Store for the C9 witness. -/
def c9Store : Store :=
  { users := [], products := [], orders := [c9Order] }

/-- Witness for C9: a foreign caller and a nonexistent id both receive the
same `notFound` response, while the owner receives the blob; the theorem's
hypotheses are discharged on the concrete ledger. -/
theorem c9_download_address_access_control_witness :
    download_address c9Store "alice" "77-aaaaaa" = DlResult.notFound ∧
    download_address c9Store "bob" "88-zzzzzz" = DlResult.notFound ∧
    download_address c9Store "bob" "77-aaaaaa" = DlResult.file "BLOB" := by
  refine ⟨?_, ?_, rfl⟩
  · refine c9_download_address_access_control.2 c9Store "alice" "77-aaaaaa" ?_
    intro o ho
    simp only [c9Store, List.mem_singleton] at ho
    subst ho
    intro hcon
    exact absurd hcon.2 (by decide)
  · refine c9_download_address_access_control.2 c9Store "bob" "88-zzzzzz" ?_
    intro o ho
    simp only [c9Store, List.mem_singleton] at ho
    subst ho
    intro hcon
    exact absurd hcon.1 (by decide)

/-! ### C8: order-id uniqueness -/

/-- Decimal digit list of a natural number, most significant first; proof
device for reasoning about `Nat.repr`. -/
def digitsList (n : Nat) : List Char :=
  if _h : n < 10 then [Nat.digitChar n]
  else digitsList (n / 10) ++ [Nat.digitChar (n % 10)]
decreasing_by exact Nat.div_lt_self (by omega) (by omega)

theorem toDigitsCore_eq_digitsList :
    ∀ (f n : Nat) (ds : List Char), n < f →
      Nat.toDigitsCore 10 f n ds = digitsList n ++ ds := by
  intro f
  induction f with
  | zero => intro n ds h; omega
  | succ f ih =>
    intro n ds h
    simp only [Nat.toDigitsCore]
    by_cases h0 : n / 10 = 0
    · have hn : n < 10 := by
        have hdm := Nat.div_add_mod n 10
        have hm : n % 10 < 10 := Nat.mod_lt _ (by omega)
        omega
      rw [if_pos h0, digitsList, dif_pos hn, Nat.mod_eq_of_lt hn]
      rfl
    · have hn : ¬ n < 10 := by
        intro hlt
        exact h0 (Nat.div_eq_of_lt hlt)
      have hf : n / 10 < f := by
        have h1 : n / 10 < n := Nat.div_lt_self (by omega) (by omega)
        omega
      rw [if_neg h0, ih (n / 10) (Nat.digitChar (n % 10) :: ds) hf]
      conv_rhs => rw [digitsList]
      rw [dif_neg hn, List.append_assoc]
      rfl

theorem natRepr_eq_digitsList (n : Nat) :
    Nat.repr n = List.asString (digitsList n) := by
  show (Nat.toDigits 10 n).asString = _
  rw [Nat.toDigits,
    toDigitsCore_eq_digitsList (n + 1) n [] (Nat.lt_succ_self n),
    List.append_nil]

/-- Decimal reading of a digit list; proof device inverse to `digitsList`. -/
def readNat (l : List Char) : Nat :=
  l.foldl (fun a c => a * 10 + (c.toNat - 48)) 0

theorem digitChar_val : ∀ d, d < 10 → (Nat.digitChar d).toNat - 48 = d := by
  decide

theorem readNat_digitsList (n : Nat) : readNat (digitsList n) = n := by
  induction n using Nat.strong_induction_on with
  | _ n ih =>
    by_cases h : n < 10
    · rw [digitsList, dif_pos h]
      show 0 * 10 + ((Nat.digitChar n).toNat - 48) = n
      rw [digitChar_val n h]
      omega
    · have h10 : n / 10 < n := Nat.div_lt_self (by omega) (by omega)
      have hmod : n % 10 < 10 := Nat.mod_lt _ (by omega)
      have ihd := ih (n / 10) h10
      rw [digitsList, dif_neg h]
      show List.foldl (fun a c => a * 10 + (c.toNat - 48)) 0
          (digitsList (n / 10) ++ [Nat.digitChar (n % 10)]) = n
      rw [List.foldl_append]
      have hin : List.foldl (fun a c => a * 10 + (c.toNat - 48)) 0
          (digitsList (n / 10)) = n / 10 := ihd
      rw [hin]
      show (n / 10) * 10 + ((Nat.digitChar (n % 10)).toNat - 48) = n
      rw [digitChar_val (n % 10) hmod]
      omega

theorem natRepr_injective (m n : Nat) (h : Nat.repr m = Nat.repr n) :
    m = n := by
  have hd : digitsList m = digitsList n := by
    have h1 := congrArg String.data h
    rw [natRepr_eq_digitsList, natRepr_eq_digitsList] at h1
    exact h1
  have h2 := congrArg readNat hd
  rwa [readNat_digitsList, readNat_digitsList] at h2

theorem stringDataInj (s t : String) (h : s.data = t.data) : s = t := by
  cases s; cases t; simp_all

theorem mintOrderId_inj (t1 t2 : Nat) (s1 s2 : String)
    (h1 : s1.length = 6) (h2 : s2.length = 6)
    (h : mintOrderId t1 s1 = mintOrderId t2 s2) : t1 = t2 ∧ s1 = s2 := by
  have hdata : (Nat.repr t1).data ++ ('-' :: s1.data) =
      (Nat.repr t2).data ++ ('-' :: s2.data) := by
    have h0 := congrArg String.data h
    simpa [mintOrderId, String.data_append] using h0
  have hlen : ('-' :: s1.data).length = ('-' :: s2.data).length := by
    have e1 : s1.data.length = 6 := h1
    have e2 : s2.data.length = 6 := h2
    simp [e1, e2]
  obtain ⟨hr, hs⟩ := List.append_inj' hdata hlen
  refine ⟨natRepr_injective t1 t2 (stringDataInj _ _ hr), ?_⟩
  exact stringDataInj s1 s2 (List.cons.injEq .. |>.mp hs).2

theorem finalizeOrder_orderIds (st : Store) (secret addr notes pay : String)
    (t : Nat) (sfx : String) :
    (finalizeOrder st secret addr notes pay t sfx).1.orders.map
        Order.order_id = st.orders.map Order.order_id ∨
    (finalizeOrder st secret addr notes pay t sfx).1.orders.map
        Order.order_id =
      st.orders.map Order.order_id ++ [mintOrderId t sfx] := by
  unfold finalizeOrder
  cases hu : lookupUser st.users secret with
  | none => left; rfl
  | some u =>
    by_cases hc : u.cart = []
    · left; simp [hc]
    · right; simp [hc, builtOrder]

theorem runCreations_ids (evs : List CreationEvent) :
    ∀ st : Store, ∃ l,
      (runCreations st evs).orders.map Order.order_id =
        st.orders.map Order.order_id ++ l ∧
      l.Sublist (evs.map fun e => mintOrderId e.t e.sfx) := by
  induction evs with
  | nil =>
    intro st
    exact ⟨[], by simp [runCreations], by simp⟩
  | cons e rest ih =>
    intro st
    obtain ⟨l, hl, hsub⟩ :=
      ih (finalizeOrder st e.secret e.addr e.notes e.pay e.t e.sfx).1
    rcases finalizeOrder_orderIds st e.secret e.addr e.notes e.pay e.t e.sfx
      with h | h
    · refine ⟨l, ?_, hsub.cons _⟩
      simp only [runCreations]
      rw [hl, h]
    · refine ⟨mintOrderId e.t e.sfx :: l, ?_, hsub.cons₂ _⟩
      simp only [runCreations]
      rw [hl, h, List.append_assoc]
      rfl

theorem mints_nodup (evs : List CreationEvent)
    (hlen : ∀ e ∈ evs, e.sfx.length = 6)
    (hpair : (evs.map fun e => (e.t, e.sfx)).Nodup) :
    (evs.map fun e => mintOrderId e.t e.sfx).Nodup := by
  have hmm : (evs.map fun e => mintOrderId e.t e.sfx) =
      (evs.map fun e => (e.t, e.sfx)).map fun p => mintOrderId p.1 p.2 := by
    simp [List.map_map]
  rw [hmm]
  refine List.Nodup.map_on ?_ hpair
  intro x hx y hy hxy
  obtain ⟨e1, he1, rfl⟩ := List.mem_map.mp hx
  obtain ⟨e2, he2, rfl⟩ := List.mem_map.mp hy
  obtain ⟨ht, hs⟩ := mintOrderId_inj e1.t e2.t e1.sfx e2.sfx (hlen e1 he1)
    (hlen e2 he2) hxy
  simp [ht, hs]

/-- Accounts and store for the C8 counterexample and witness: two registered
users, each with one item in the cart, empty ledger. -/
def c8Henk : UserAcct :=
  { username := "he", telegram_id := 10, country := none,
    cart := [{ id := "I", name := "I", price := 4 }],
    wishlist := [], coupon := none, orders := [] }

/-- Second account for C8. -/
def c8Iris : UserAcct :=
  { username := "ir", telegram_id := 11, country := none,
    cart := [{ id := "J", name := "J", price := 6 }],
    wishlist := [], coupon := none, orders := [] }

/-- Store for C8. -/
def c8Store : Store :=
  { users := [("henk", c8Henk), ("iris", c8Iris)], products := [],
    orders := [] }

/-- Two sequential creations whose time-and-randomness oracle returns the
same second and the same 6-hex-character suffix. -/
def c8EventsClash : List CreationEvent :=
  [{ secret := "henk", addr := "e", notes := "", pay := "BTC", t := 1000,
     sfx := "aaaaaa" },
   { secret := "iris", addr := "e", notes := "", pay := "BTC", t := 1000,
     sfx := "aaaaaa" }]

/-- Two sequential creations with distinct random suffixes. -/
def c8EventsOk : List CreationEvent :=
  [{ secret := "henk", addr := "e", notes := "", pay := "BTC", t := 1000,
     sfx := "aaaaaa" },
   { secret := "iris", addr := "e", notes := "", pay := "BTC", t := 1000,
     sfx := "bbbbbb" }]

/-- C8 counterexample: the code never checks the ledger for id collisions,
so two sequential creations handed the same creation second and the same
random suffix append two orders with the same id; the ids are not globally
unique as the claim states. -/
theorem c8_counterexample_duplicate_ids :
    (runCreations c8Store c8EventsClash).orders.map Order.order_id =
      ["1000-aaaaaa", "1000-aaaaaa"] ∧
    ¬ ((runCreations c8Store c8EventsClash).orders.map Order.order_id).Nodup
    := by
  constructor
  · rfl
  · intro h
    have h2 : (["1000-aaaaaa", "1000-aaaaaa"] : List String).Nodup := by
      have e : (runCreations c8Store c8EventsClash).orders.map
          Order.order_id = ["1000-aaaaaa", "1000-aaaaaa"] := rfl
      rwa [e] at h
    simp at h2

/-- C8 amended: order ids (creation-second decimal string, a dash, and the
6-character random suffix) are pairwise distinct across the full ledger for
any number of sequential creations, provided no two creations receive the
same (second, suffix) pair from the clock-and-randomness oracle; the code
itself performs no uniqueness check, so a repeated pair produces duplicate
ids. -/
theorem c8_amended_ids_unique_under_distinct_mints :
    ∀ (st : Store) (evs : List CreationEvent),
      st.orders = [] →
      (∀ e ∈ evs, e.sfx.length = 6) →
      (evs.map fun e => (e.t, e.sfx)).Nodup →
      ((runCreations st evs).orders.map Order.order_id).Nodup := by
  intro st evs h0 hlen hpair
  obtain ⟨l, hl, hsub⟩ := runCreations_ids evs st
  rw [hl, h0]
  simp only [List.map_nil, List.nil_append]
  exact hsub.nodup (mints_nodup evs hlen hpair)

/-- Witness for C8 (amended): two creations with distinct suffixes on a
concrete store yield a duplicate-free ledger; hypotheses discharged
there. -/
theorem c8_amended_ids_unique_under_distinct_mints_witness :
    c8Store.orders = [] ∧
    (∀ e ∈ c8EventsOk, e.sfx.length = 6) ∧
    (c8EventsOk.map fun e => (e.t, e.sfx)).Nodup ∧
    ((runCreations c8Store c8EventsOk).orders.map Order.order_id).Nodup := by
  refine ⟨rfl, by decide, by decide, ?_⟩
  exact c8_amended_ids_unique_under_distinct_mints c8Store c8EventsOk rfl
    (by decide) (by decide)
